import Mathlib

/-!
Shallow embedding of the swap/transfer/order core of the llm-front repository
(file `src/unnamed/part_000`).  External interactions (wallet, RPC endpoints,
the AMM factory and router, the batch-auction venue API) are modelled as
oracle values supplied through explicit world structures; each embedded
function returns its result together with the ordered list of external
effects it performs.  Machine integers (uint256 / ethers BigNumber) are
modelled as Nat / Int; human-decimal amount strings are modelled as the
rational numbers they denote.
-/

deriving instance DecidableEq for Except

namespace LlmFront

abbrev Address := String

/-- ethers.constants.AddressZero. -/
def zeroAddress : Address := "0x0000000000000000000000000000000000000000"

/-- The supportedChains table (source lines 88 to 92). -/
def supportedChains (chain : String) : Option Nat :=
  if chain = "sepolia" then some 11155111
  else if chain = "mainnet" then some 1
  else if chain = "base" then some 8453
  else none

/-- Sepolia entries of the decimalConverter table (source lines 64 to 72). -/
def sepoliaDecimals : List (Address × Nat) :=
  [("0x7b79995e5f793A07Bc00c21412e50Ecae098E7f9", 18),
   ("0x94a9d9ac8a22534e3faca9f4e7f2e2cf85d5e4c8", 6),
   ("0x1c7D4B196Cb0C7B01d743Fbc6116a902379C7238", 6),
   ("0x08210F9170F89Ab7658F0B5E3fF39b0E03C594D4", 6),
   ("0xB4F1737Af37711e9A5890D9510c9bB60e170CB0D", 18),
   ("0xbe72E441BF55620febc26715db68d3494213D8Cb", 18)]

/-- Mainnet entries of the decimalConverter table (source lines 73 to 79). -/
def mainnetDecimals : List (Address × Nat) :=
  [("0xC02aaA39b223FE8D0A0e5C4F27eAD9083C756Cc2", 18),
   ("0xA0b86991c6218b36c1d19D4a2e9Eb0cE3606eB48", 6),
   ("0x6B175474E89094C44Da98b954EedeAC495271d0F", 18),
   ("0x1aBaEA1f7C830bD89Acc67eC4af516284b1bC33c", 6)]

/-- The decimalConverter table keyed by chain id (source lines 63 to 80). -/
def decimalConverter : List (Nat × List (Address × Nat)) :=
  [(11155111, sepoliaDecimals), (1, mainnetDecimals)]

/-- The UNISWAP_V2_ROUTER table (source lines 39 to 42). -/
def UNISWAP_V2_ROUTER : List (Nat × Address) :=
  [(1, "0x7a250d5630B4cF539739dF2C5dAcb4c659F2488D"),
   (11155111, "0xC532a74256D3Db42D0Bf7a0400fEFDbad7694008")]

/-- The UNISWAP_V2_FACTORY table (source lines 44 to 47). -/
def UNISWAP_V2_FACTORY : List (Nat × Address) :=
  [(1, "0x5C69bEe701ef814a2B6a3EDD4B1652CB9cc5aA6f"),
   (11155111, "0x7E0987E5b3a30e3f2828572Bb659A548460a3003")]

/-- The WETH_ADDRESS definition of uniswapV2Swap (source lines 434 to 436). -/
def wethAddressOf (chainId : Nat) : Address :=
  if chainId = 11155111 then "0x7b79995e5f793A07Bc00c21412e50Ecae098E7f9"
  else "0xC02aaA39b223FE8D0A0e5C4F27eAD9083C756Cc2"

/-- External effects performed by the embedded functions, in program order.
Constructors carry the payloads the claims need to inspect. -/
inductive Effect where
  | switchChain : Nat → Effect
  | getAddress : Effect
  | convertAmount : Int → Effect
  | readAllowance : Address → Address → Address → Effect
  | approveTx : Address → Address → Nat → Effect
  | waitMined : Effect
  | getQuote : Effect
  | signOrder : Int → Int → Int → Effect
  | submitOrder : Effect
  | getPair : Address → Address → Address → Effect
  | createPairTx : Address → Address → Address → Effect
  | getAmountsOut : Effect
  | swapTx : List Address → Int → Nat → Effect
  | transferTx : Address → Int → Effect
  | resolveEns : String → Effect
  | sleepMs : Nat → Effect
  | pollOrder : String → Effect
  deriving DecidableEq, Repr

/-- True exactly for the effects that submit an on-chain transaction. -/
def isOnChainTx : Effect → Bool
  | .approveTx _ _ _ => true
  | .createPairTx _ _ _ => true
  | .swapTx _ _ _ => true
  | .transferTx _ _ => true
  | _ => false

/-- ethers.utils.parseUnits: a human-decimal string with at most `decimals`
fractional digits denotes a rational `amount` with `amount * 10 ^ decimals`
integral; the call returns that integer and throws otherwise. -/
def parseUnits (amount : ℚ) (decimals : Nat) : Option Int :=
  let scaled := amount * (10 : ℚ) ^ decimals
  if scaled.den = 1 then some scaled.num else none

/-- ethers.utils.formatUnits: the decimal string printed for the base-unit
integer `n` at precision `decimals` denotes exactly this rational. -/
def formatUnits (n : Int) (decimals : Nat) : ℚ :=
  (n : ℚ) / (10 : ℚ) ^ decimals

/-- The amountOutMin computation of uniswapV2Swap (source line 518):
expected.mul(100 - Math.floor(slippage * 100)).div(100) with slippage 0.05.
In IEEE doubles 0.05 * 100 evaluates to exactly 5.0, so the BigNumber factor
is 100 - 5 = 95; BigNumber div on non-negative values is floor division,
matching Nat division. -/
def ammAmountOutMin (expectedOut : Nat) : Nat :=
  expectedOut * (100 - 5) / 100

/-- Round a rational to the nearest integer, ties to even: the IEEE-754
default rounding, applied below to a scaled 53-bit significand. -/
def roundNearestEven (q : ℚ) : ℤ :=
  if Int.fract q < 1 / 2 then ⌊q⌋
  else if 1 / 2 < Int.fract q then ⌊q⌋ + 1
  else if 2 ∣ ⌊q⌋ then ⌊q⌋ else ⌊q⌋ + 1

/-- Round a non-negative rational to the nearest IEEE-754 binary64 value
(round to nearest, ties to even): the 53-bit significand is selected in the
binade of the input.  Exponent overflow and subnormals are not modelled;
every quantity the embedded code feeds through doubles lies far inside the
normal range. -/
def floatRound (q : ℚ) : ℚ :=
  if q ≤ 0 then 0
  else
    (roundNearestEven (q / (2 : ℚ) ^ (Int.log 2 q - 52)) : ℚ) *
      (2 : ℚ) ^ (Int.log 2 q - 52)

/-- The buy-amount override of sendOrder (source lines 278 to 280):
Math.round(Number(quote.buyAmount) * (1 - slippage)) with slippage the
double literal 0.05, evaluated in IEEE-754 binary64 arithmetic.  The
decimal literal 0.05, the runtime subtraction 1 - 0.05, the string-to-
number conversion of the base-unit amount, and the product are each
correctly rounded doubles; Math.round then rounds the exact double value
half-up per the ECMAScript specification (the venue quotes non-negative
amounts). -/
def cowAdjustedBuyAmount (buyAmount : Int) : Int :=
  round (floatRound
    (floatRound (buyAmount : ℚ) * floatRound (1 - floatRound (5 / 100))))

/-- ethers.constants.MaxUint256. -/
def maxUint256 : Nat := 2 ^ 256 - 1

/-- checkAllowanceAndApproveIfNecessary (source lines 115 to 147).  Reads the
current allowance of `targetContract` over `tokenContract` for `owner`; if it
is at least `requiredAmount` it is a no-op, otherwise it submits one approval
transaction for MaxUint256 and waits for it to be mined.  Returns the effect
trace and the resulting allowance. -/
def checkAllowanceAndApproveIfNecessary (targetContract tokenContract owner : Address)
    (existingAllowance : Nat) (requiredAmount : Int) : List Effect × Nat :=
  if requiredAmount ≤ (existingAllowance : Int) then
    ([Effect.readAllowance owner targetContract tokenContract], existingAllowance)
  else
    ([Effect.readAllowance owner targetContract tokenContract,
      Effect.approveTx targetContract tokenContract maxUint256,
      Effect.waitMined], maxUint256)

/-- checkLiquidityPoolExists (source lines 335 to 354).  `getPairResult` is
the outcome of the factory.getPair call: the pair address on success, or the
thrown error.  The probe returns whether the reported pair address differs
from the zero address, and false on any error. -/
def checkLiquidityPoolExists (factoryAddress tokenA tokenB : Address)
    (getPairResult : Except String Address) : Bool :=
  match getPairResult with
  | .ok pairAddress => pairAddress != zeroAddress
  | .error _ => false

/-- The terminal error message of the bootstrap branch (source line 506). -/
def noViableRouteMessage : String :=
  "No viable swap path found and failed to create necessary liquidity pools. There is no liquidity for this pair."

/-- createLiquidityPoolIfNeeded (source lines 557 to 590).  `recheck` is
the outcome of the getPair re-check, which can itself throw (source line
571): then the catch rethrows the creation error with no transaction ever
attempted.  A reported non-zero pair is returned with nothing sent; on the
zero address a createPair transaction is attempted (`createOk` tells
whether the creation call, its confirmation and the final re-read all
succeed, `newPair` the address then reported; a failure anywhere in that
span is modelled at the creation attempt). -/
def createLiquidityPoolIfNeeded (factoryAddress tokenA tokenB : Address)
    (recheck : Except String Address) (createOk : Bool) (newPair : Address) :
    Except String Address × List Effect :=
  match recheck with
  | .error _ =>
    (.error "Failed to create liquidity pool",
      [Effect.getPair factoryAddress tokenA tokenB])
  | .ok pairAddress =>
    if pairAddress ≠ zeroAddress then
      (.ok pairAddress, [Effect.getPair factoryAddress tokenA tokenB])
    else if createOk then
      (.ok newPair,
        [Effect.getPair factoryAddress tokenA tokenB,
         Effect.createPairTx factoryAddress tokenA tokenB,
         Effect.waitMined,
         Effect.getPair factoryAddress tokenA tokenB])
    else
      (.error "Failed to create liquidity pool",
        [Effect.getPair factoryAddress tokenA tokenB,
         Effect.createPairTx factoryAddress tokenA tokenB])

/-- Oracle outcomes for the pool-creation attempts a single uniswapV2Swap
call can make: for each of the three candidate pairs, the outcome of the
re-check getPair call (which can throw), whether the creation transaction
would succeed, and the address a successful creation would report. -/
structure BootstrapOracle where
  pairNowDirect : Except String Address
  createDirectOk : Bool
  newPairDirect : Address
  pairNowFromWeth : Except String Address
  createFromWethOk : Bool
  newPairFromWeth : Address
  pairNowToWeth : Except String Address
  createToWethOk : Bool
  newPairToWeth : Address
  deriving Repr

/-- The path-determination block of uniswapV2Swap (source lines 467 to 508),
as a function of the three pool-existence probe results and the bootstrap
oracle.  The inner try catches a failed direct-pool creation and falls back
to creating the missing WETH legs; errors of the fallback reach the outer
catch, which raises the terminal no-viable-route error. -/
def selectPath (factoryAddress fromAsset toAsset wethAddr : Address)
    (directPoolExists fromWethPoolExists toWethPoolExists : Bool)
    (o : BootstrapOracle) : Except String (List Address) × List Effect :=
  if directPoolExists then
    (.ok [fromAsset, toAsset], [])
  else if fromWethPoolExists && toWethPoolExists then
    (.ok [fromAsset, wethAddr, toAsset], [])
  else
    if !directPoolExists then
      match createLiquidityPoolIfNeeded factoryAddress fromAsset toAsset
          o.pairNowDirect o.createDirectOk o.newPairDirect with
      | (.ok _, tr1) => (.ok [fromAsset, toAsset], tr1)
      | (.error _, tr1) =>
        match (if !fromWethPoolExists then
                createLiquidityPoolIfNeeded factoryAddress fromAsset wethAddr
                  o.pairNowFromWeth o.createFromWethOk o.newPairFromWeth
              else (.ok wethAddr, [])) with
        | (.error _, tr2) => (.error noViableRouteMessage, tr1 ++ tr2)
        | (.ok _, tr2) =>
          match (if !toWethPoolExists then
                  createLiquidityPoolIfNeeded factoryAddress wethAddr toAsset
                    o.pairNowToWeth o.createToWethOk o.newPairToWeth
                else (.ok wethAddr, [])) with
          | (.error _, tr3) => (.error noViableRouteMessage, tr1 ++ tr2 ++ tr3)
          | (.ok _, tr3) => (.ok [fromAsset, wethAddr, toAsset], tr1 ++ tr2 ++ tr3)
    else
      (.ok [fromAsset, wethAddr, toAsset], [])

/-- OrderStatus enumeration of the cow-sdk. -/
inductive OrderStatus where
  | PRESIGNATURE_PENDING
  | OPEN
  | FULFILLED
  | CANCELLED
  | EXPIRED
  deriving DecidableEq, Repr

/-- The while loop of waitForOrderStatus (source lines 317 to 323), unrolled
on a fuel argument because the source loop is unbounded: `poll k` is the
status the (k+1)-th getOrder call reports, and `none` means the loop has not
terminated within `fuel` iterations.  Each iteration first sleeps 3000 ms,
then polls; the loop exits on the first non-OPEN status. -/
def waitLoop (orderId : String) (poll : Nat → OrderStatus) :
    Nat → Nat → Option (OrderStatus × List Effect)
  | 0, _ => none
  | fuel + 1, k =>
    let s := poll k
    if s = OrderStatus.OPEN then
      match waitLoop orderId poll fuel (k + 1) with
      | none => none
      | some (r, tr) =>
        some (r, Effect.sleepMs 3000 :: Effect.pollOrder orderId :: tr)
    else
      some (s, [Effect.sleepMs 3000, Effect.pollOrder orderId])

/-- waitForOrderStatus (source lines 307 to 325): resolves the chain, then
runs the polling loop starting from the initial OPEN status, which forces at
least one sleep-and-poll iteration. -/
def waitForOrderStatus (orderId : String) (chain : String)
    (poll : Nat → OrderStatus) (fuel : Nat) :
    Except String (Option (OrderStatus × List Effect)) :=
  match supportedChains chain with
  | none => .error "Unsupported chain"
  | some _ => .ok (waitLoop orderId poll fuel 0)

/-- The trace produced by `n` sleep-and-poll iterations. -/
def pollTrace (orderId : String) : Nat → List Effect
  | 0 => []
  | n + 1 => Effect.sleepMs 3000 :: Effect.pollOrder orderId :: pollTrace orderId n

/-- Hex digit test used by the address shape check. -/
def isHexChar (c : Char) : Bool :=
  c.isDigit || (("a".front ≤ c) && (c ≤ "f".front)) || (("A".front ≤ c) && (c ≤ "F".front))

/-- ethers.utils.isAddress, modelled as the hex-shape check (0x followed by
40 hex digits); the checksum-case validation of ethers is elided, no claim
depends on it. -/
def isAddress (s : String) : Bool :=
  s.startsWith "0x" && s.length == 42 && (s.drop 2).all isHexChar

/-- JavaScript String.prototype.includes for a non-empty pattern: the pattern
occurs in `s` exactly when splitting on it yields more than one part. -/
def strIncludes (s pat : String) : Bool :=
  (s.splitOn pat).length != 1

/-- The catch block of uniswapV2Swap (source lines 536 to 546): an error
whose message mentions INSUFFICIENT_OUTPUT_AMOUNT becomes the insufficient
liquidity error, anything else is rewrapped with the Swap failed prefix. -/
def mapSwapError (msg : String) : String :=
  if strIncludes msg "INSUFFICIENT_OUTPUT_AMOUNT" then
    "Insufficient liquidity for this swap pair"
  else
    "Swap failed: " ++ msg

/-- World oracle for sendTransaction: wallet connectivity, the ENS
resolution result of the mainnet provider (none models a null resolution),
and the hash of the submitted transfer transaction. -/
structure TransferWorld where
  walletConnected : Bool
  senderAddress : Address
  ensResolution : Option Address
  txHash : String
  deriving Repr

/-- sendTransaction (source lines 169 to 217).  Returns the transaction
response (modelled by its hash) or the thrown error, with the effect trace. -/
def sendTransaction (w : TransferWorld) (receiver : Address) (amount : ℚ)
    (chain : String) (erc20ContractAddress : Address) :
    Except String String × List Effect :=
  if !w.walletConnected then (.error "No wallet is connected!", []) else
  match supportedChains chain with
  | none => (.error "Unsupported chain", [])
  | some chainId =>
    let tr0 := [Effect.switchChain chainId]
    match List.lookup chainId decimalConverter with
    | none => (.error ("No decimals for chain: " ++ chain), tr0)
    | some chainDecimals =>
      match List.lookup erc20ContractAddress chainDecimals with
      | none => (.error ("No decimals for token: " ++ erc20ContractAddress), tr0)
      | some decimals =>
        match parseUnits amount decimals with
        | none => (.error "invalid decimal amount", tr0)
        | some amountDecimals =>
          let tr1 := tr0 ++ [Effect.convertAmount amountDecimals]
          if isAddress receiver then
            (.ok w.txHash, tr1 ++ [Effect.transferTx receiver amountDecimals])
          else
            match w.ensResolution with
            | none =>
              (.error "Could not resolve ENS name", tr1 ++ [Effect.resolveEns receiver])
            | some resolvedName =>
              (.ok w.txHash,
                tr1 ++ [Effect.resolveEns receiver, Effect.transferTx resolvedName amountDecimals])

/-- A quote returned by the batch-auction venue (the fields of the cow-sdk
quote that sendOrder reads or overrides, as base-unit integers). -/
structure CowQuote where
  feeAmount : Int
  sellAmount : Int
  buyAmount : Int
  quoteId : Nat
  deriving DecidableEq, Repr

/-- An error thrown by the venue API: the body errorType and description
when a body is present, and the raw message. -/
structure CowApiError where
  errorType : Option String
  description : Option String
  message : String
  deriving DecidableEq, Repr

/-- The catch block of sendOrder (source lines 297 to 304). -/
def mapCowError (e : CowApiError) : String :=
  if e.errorType = some "NoLiquidity" then
    "NoLiquidity: " ++ e.description.getD "No route found between these tokens"
  else
    e.message

/-- World oracle for sendOrder: wallet connectivity, the signer address, the
vault relayer address the cow-sdk constant reports for the chain, the
current allowance, and the venue responses to getQuote and order
submission. -/
structure OrderWorld where
  walletConnected : Bool
  senderAddress : Address
  vaultRelayerAddress : Address
  existingAllowance : Nat
  quoteResult : Except CowApiError CowQuote
  sendOrderResult : Except CowApiError String
  deriving Repr

/-- sendOrder (source lines 219 to 305).  Checks the chain and wallet,
converts the amount, ensures the vault relayer allowance, requests a quote,
overrides its fee to zero, its sell amount to the requested base-unit
amount and its buy amount to the slippage-reduced value, signs and submits
the order, returning the order id. -/
def sendOrder (w : OrderWorld) (chain : String) (fromAsset toAsset : Address)
    (amount : ℚ) : Except String String × List Effect :=
  match supportedChains chain with
  | none => (.error "Unsupported chain", [])
  | some chainId =>
    if !w.walletConnected then (.error "No wallet is connected!", []) else
    let tr0 := [Effect.switchChain chainId, Effect.getAddress]
    match List.lookup chainId decimalConverter with
    | none => (.error ("No decimals for chain: " ++ chain), tr0)
    | some chainDecimals =>
      match List.lookup fromAsset chainDecimals with
      | none => (.error ("No decimals for token: " ++ fromAsset), tr0)
      | some decimals =>
        match parseUnits amount decimals with
        | none => (.error "invalid decimal amount", tr0)
        | some amountDecimals =>
          let tr1 := tr0 ++ [Effect.convertAmount amountDecimals]
          let allowRes := checkAllowanceAndApproveIfNecessary
            w.vaultRelayerAddress fromAsset w.senderAddress
            w.existingAllowance amountDecimals
          let tr2 := tr1 ++ allowRes.1
          match w.quoteResult with
          | .error e => (.error (mapCowError e), tr2 ++ [Effect.getQuote])
          | .ok quote =>
            let adjustedBuy := cowAdjustedBuyAmount quote.buyAmount
            match w.sendOrderResult with
            | .ok orderId =>
              (.ok orderId,
                tr2 ++ [Effect.getQuote,
                        Effect.signOrder 0 amountDecimals adjustedBuy,
                        Effect.submitOrder])
            | .error e =>
              (.error (mapCowError e),
                tr2 ++ [Effect.getQuote,
                        Effect.signOrder 0 amountDecimals adjustedBuy,
                        Effect.submitOrder])

/-- World oracle for uniswapV2Swap: wallet connectivity, signer address,
current router allowance, the three getPair probe outcomes, the bootstrap
oracle, the getAmountsOut response, and the swap submission response. -/
structure SwapWorld where
  walletConnected : Bool
  senderAddress : Address
  existingAllowance : Nat
  getPairDirect : Except String Address
  getPairFromWeth : Except String Address
  getPairToWeth : Except String Address
  bootstrap : BootstrapOracle
  amountsOut : Except String (List Nat)
  swapResult : Except String String
  deriving Repr

/-- uniswapV2Swap (source lines 365 to 547).  Checks wallet, chain, router
and factory, converts the amount, ensures the router allowance, probes the
three candidate pools, determines the path (with bootstrap fallback),
queries the expected output, computes the slippage-bounded minimum output
and submits the swap, returning the transaction hash. -/
def uniswapV2Swap (w : SwapWorld) (chain : String) (fromAsset toAsset : Address)
    (amount : ℚ) : Except String String × List Effect :=
  if !w.walletConnected then (.error "No wallet is connected!", []) else
  match supportedChains chain with
  | none => (.error ("Unsupported chain: " ++ chain), [])
  | some chainId =>
    match List.lookup chainId UNISWAP_V2_ROUTER with
    | none => (.error ("No Uniswap Router found for chain: " ++ chain), [])
    | some routerAddress =>
      match List.lookup chainId UNISWAP_V2_FACTORY with
      | none => (.error ("No Uniswap Factory found for chain: " ++ chain), [])
      | some factoryAddress =>
        let tr0 := [Effect.switchChain chainId, Effect.getAddress]
        match List.lookup chainId decimalConverter with
        | none => (.error ("No decimals for chain: " ++ chain), tr0)
        | some chainDecimals =>
          match List.lookup fromAsset chainDecimals with
          | none => (.error ("No decimals for token: " ++ fromAsset), tr0)
          | some decimals =>
            match parseUnits amount decimals with
            | none => (.error "invalid decimal amount", tr0)
            | some amountDecimals =>
              let tr1 := tr0 ++ [Effect.convertAmount amountDecimals]
              let allowRes := checkAllowanceAndApproveIfNecessary
                routerAddress fromAsset w.senderAddress
                w.existingAllowance amountDecimals
              let WETH_ADDRESS := wethAddressOf chainId
              let directPoolExists :=
                checkLiquidityPoolExists factoryAddress fromAsset toAsset w.getPairDirect
              let fromWethPoolExists :=
                checkLiquidityPoolExists factoryAddress fromAsset WETH_ADDRESS w.getPairFromWeth
              let toWethPoolExists :=
                checkLiquidityPoolExists factoryAddress WETH_ADDRESS toAsset w.getPairToWeth
              let tr2 := tr1 ++ allowRes.1 ++
                [Effect.getPair factoryAddress fromAsset toAsset,
                 Effect.getPair factoryAddress fromAsset WETH_ADDRESS,
                 Effect.getPair factoryAddress WETH_ADDRESS toAsset]
              match selectPath factoryAddress fromAsset toAsset WETH_ADDRESS
                  directPoolExists fromWethPoolExists toWethPoolExists w.bootstrap with
              | (.error e, trPath) => (.error e, tr2 ++ trPath)
              | (.ok path, trPath) =>
                let tr3 := tr2 ++ trPath
                match w.amountsOut with
                | .error msg => (.error (mapSwapError msg), tr3 ++ [Effect.getAmountsOut])
                | .ok amounts =>
                  let outputIndex := path.length - 1
                  let amountOutMin := ammAmountOutMin (amounts.getD outputIndex 0)
                  match w.swapResult with
                  | .ok txHash =>
                    (.ok txHash,
                      tr3 ++ [Effect.getAmountsOut,
                              Effect.swapTx path amountDecimals amountOutMin])
                  | .error msg =>
                    (.error (mapSwapError msg),
                      tr3 ++ [Effect.getAmountsOut,
                              Effect.swapTx path amountDecimals amountOutMin])

/-! ## Helper lemmas -/

lemma parseUnits_hundred_six : parseUnits 100 6 = some 100000000 := by
  have h : (100 : ℚ) * (10 : ℚ) ^ (6 : ℕ) = ((100000000 : ℤ) : ℚ) := by norm_num
  unfold parseUnits
  simp only [h, Rat.den_intCast, Rat.num_intCast, if_pos]

lemma roundNearestEven_intCast (n : ℤ) : roundNearestEven (n : ℚ) = n := by
  unfold roundNearestEven
  rw [Int.fract_intCast]
  norm_num

lemma roundNearestEven_div_eval (a : ℤ) (b : ℕ) (n r : ℤ)
    (hb : 0 < b) (ha : a = n * b + r) (h0 : 0 ≤ r) (hr : r < b) :
    roundNearestEven ((a : ℚ) / (b : ℚ)) =
      if 2 * r < (b : ℤ) then n
      else if (b : ℤ) < 2 * r then n + 1
      else if 2 ∣ n then n else n + 1 := by
  have hbQ : (0 : ℚ) < (b : ℚ) := by exact_mod_cast hb
  have hfloor : ⌊((a : ℚ) / (b : ℚ))⌋ = n := by
    rw [Rat.floor_intCast_div_natCast]
    subst ha
    rw [add_comm (n * (b : ℤ)) r,
      Int.add_mul_ediv_right r n (by exact_mod_cast hb.ne'),
      Int.ediv_eq_zero_of_lt h0 hr, zero_add]
  have hfract : Int.fract ((a : ℚ) / (b : ℚ)) = (r : ℚ) / (b : ℚ) := by
    rw [Int.fract, hfloor]
    subst ha
    push_cast
    field_simp
    ring
  have hlt : ((r : ℚ) / (b : ℚ) < 1 / 2) ↔ (2 * r < (b : ℤ)) := by
    rw [div_lt_div_iff hbQ (by norm_num : (0 : ℚ) < 2), one_mul,
      show (r : ℚ) * 2 = ((2 * r : ℤ) : ℚ) by push_cast; ring,
      show ((b : ℕ) : ℚ) = (((b : ℕ) : ℤ) : ℚ) by push_cast; ring]
    exact Int.cast_lt
  have hgt : (1 / 2 < (r : ℚ) / (b : ℚ)) ↔ ((b : ℤ) < 2 * r) := by
    rw [div_lt_div_iff (by norm_num : (0 : ℚ) < 2) hbQ, one_mul,
      show (r : ℚ) * 2 = ((2 * r : ℤ) : ℚ) by push_cast; ring,
      show ((b : ℕ) : ℚ) = (((b : ℕ) : ℤ) : ℚ) by push_cast; ring]
    exact Int.cast_lt
  unfold roundNearestEven
  rw [hfract, hfloor]
  simp only [hlt, hgt]

lemma floatRound_eq_of_bounds (q : ℚ) (e : ℤ)
    (h1 : (2 : ℚ) ^ (e + 52) ≤ q) (h2 : q < (2 : ℚ) ^ (e + 53)) :
    floatRound q = (roundNearestEven (q / (2 : ℚ) ^ e) : ℚ) * (2 : ℚ) ^ e := by
  have hq : 0 < q := lt_of_lt_of_le (by positivity) h1
  have hlog : Int.log 2 q = e + 52 := by
    have hlow : e + 52 ≤ Int.log 2 q :=
      (Int.zpow_le_iff_le_log (by norm_num) hq).mp (by exact_mod_cast h1)
    have hhigh : Int.log 2 q < e + 53 :=
      (Int.lt_zpow_iff_log_lt (by norm_num) hq).mp (by exact_mod_cast h2)
    omega
  unfold floatRound
  rw [if_neg (not_le.mpr hq), hlog, add_sub_cancel_right]

lemma floatRound_d05 : floatRound (5 / 100) = 3602879701896397 / 2 ^ 56 := by
  have h := floatRound_eq_of_bounds (5 / 100) (-57) (by norm_num) (by norm_num)
  rw [h, show (5 / 100 : ℚ) / (2 : ℚ) ^ (-57 : ℤ) =
      ((36028797018963968 : ℤ) : ℚ) / ((5 : ℕ) : ℚ) by rw [zpow_neg]; norm_num,
    roundNearestEven_div_eval 36028797018963968 5 7205759403792793 3
      (by norm_num) (by norm_num) (by norm_num) (by norm_num)]
  norm_num [zpow_neg]

lemma floatRound_d95 :
    floatRound (1 - 3602879701896397 / 2 ^ 56) = 4278419646001971 / 2 ^ 52 := by
  have h := floatRound_eq_of_bounds (1 - 3602879701896397 / 2 ^ 56) (-53)
    (by norm_num) (by norm_num)
  rw [h, show (1 - 3602879701896397 / 2 ^ 56 : ℚ) / (2 : ℚ) ^ (-53 : ℤ) =
      ((68454714336031539 : ℤ) : ℚ) / ((8 : ℕ) : ℚ) by rw [zpow_neg]; norm_num,
    roundNearestEven_div_eval 68454714336031539 8 8556839292003942 3
      (by norm_num) (by norm_num) (by norm_num) (by norm_num)]
  norm_num [zpow_neg]

lemma floatRound_two : floatRound 2 = 2 := by
  have h := floatRound_eq_of_bounds 2 (-51) (by norm_num) (by norm_num)
  rw [h, show (2 : ℚ) / (2 : ℚ) ^ (-51 : ℤ) = ((4503599627370496 : ℤ) : ℚ) by
      rw [zpow_neg]; norm_num,
    roundNearestEven_intCast]
  norm_num [zpow_neg]

lemma floatRound_two_mul_d95 :
    floatRound (2 * (4278419646001971 / 2 ^ 52)) = 4278419646001971 / 2 ^ 51 := by
  have h := floatRound_eq_of_bounds (2 * (4278419646001971 / 2 ^ 52)) (-52)
    (by norm_num) (by norm_num)
  rw [h, show (2 * (4278419646001971 / 2 ^ 52) : ℚ) / (2 : ℚ) ^ (-52 : ℤ) =
      ((8556839292003942 : ℤ) : ℚ) by rw [zpow_neg]; norm_num,
    roundNearestEven_intCast]
  norm_num [zpow_neg]

lemma floatRound_2e8 : floatRound 200000000 = 200000000 := by
  have h := floatRound_eq_of_bounds 200000000 (-25) (by norm_num) (by norm_num)
  rw [h, show (200000000 : ℚ) / (2 : ℚ) ^ (-25 : ℤ) =
      ((6710886400000000 : ℤ) : ℚ) by rw [zpow_neg]; norm_num,
    roundNearestEven_intCast]
  norm_num [zpow_neg]

lemma floatRound_2e8_mul_d95 :
    floatRound (200000000 * (4278419646001971 / 2 ^ 52)) = 190000000 := by
  have h := floatRound_eq_of_bounds (200000000 * (4278419646001971 / 2 ^ 52)) (-25)
    (by norm_num) (by norm_num)
  rw [h, show (200000000 * (4278419646001971 / 2 ^ 52) : ℚ) / (2 : ℚ) ^ (-25 : ℤ) =
      ((1671257674219519921875 : ℤ) : ℚ) / ((262144 : ℕ) : ℚ) by rw [zpow_neg]; norm_num,
    roundNearestEven_div_eval 1671257674219519921875 262144 6375342079999999 184019
      (by norm_num) (by norm_num) (by norm_num) (by norm_num)]
  norm_num [zpow_neg]

lemma cowAdjustedBuyAmount_two : cowAdjustedBuyAmount 2 = 2 := by
  unfold cowAdjustedBuyAmount
  rw [show ((2 : ℤ) : ℚ) = (2 : ℚ) by norm_num, floatRound_d05, floatRound_d95,
    floatRound_two, floatRound_two_mul_d95, round_eq,
    show (4278419646001971 / 2 ^ 51 + 1 / 2 : ℚ) =
      ((5404319552844595 : ℤ) : ℚ) / ((2251799813685248 : ℕ) : ℚ) by norm_num,
    Rat.floor_intCast_div_natCast]
  decide

lemma cowAdjustedBuyAmount_190M : cowAdjustedBuyAmount 200000000 = 190000000 := by
  unfold cowAdjustedBuyAmount
  rw [show ((200000000 : ℤ) : ℚ) = (200000000 : ℚ) by norm_num, floatRound_d05,
    floatRound_d95, floatRound_2e8, floatRound_2e8_mul_d95,
    show (190000000 : ℚ) = ((190000000 : ℤ) : ℚ) by norm_num, round_intCast]

lemma floor_two_mul_95_div_100 : ⌊((2 : ℚ) * 95 / 100)⌋ = 1 := by
  have h : ((2 : ℚ) * 95 / 100) = 19 / 10 := by norm_num
  rw [h, Int.floor_eq_iff] <;> norm_num

/-! ## C7: the pool-existence probe never propagates an error -/

/-- C7: checkLiquidityPoolExists is a pure probe: when the registry call
succeeds it returns true exactly when the reported pair address differs from
the zero address, and it returns false (rather than raising) on any
pool-registry error. -/
theorem poolExists_probe_total (factoryAddress tokenA tokenB : Address)
    (r : Except String Address) :
    (∀ a, r = .ok a →
      (checkLiquidityPoolExists factoryAddress tokenA tokenB r = true ↔ a ≠ zeroAddress))
    ∧ (∀ e, r = .error e →
      checkLiquidityPoolExists factoryAddress tokenA tokenB r = false) := by
  constructor
  · rintro a rfl
    simp [checkLiquidityPoolExists, bne_iff_ne]
  · rintro e rfl
    rfl

/-- Witness for C7 at a concrete successful probe and a concrete registry
error. -/
theorem poolExists_probe_total_witness :
    (checkLiquidityPoolExists "0xF" "0xA" "0xB" (.ok "0x1") = true ↔
      "0x1" ≠ zeroAddress)
    ∧ checkLiquidityPoolExists "0xF" "0xA" "0xB" (.error "rpc failure") = false :=
  ⟨(poolExists_probe_total "0xF" "0xA" "0xB" (.ok "0x1")).1 "0x1" rfl,
   (poolExists_probe_total "0xF" "0xA" "0xB" (.error "rpc failure")).2 "rpc failure" rfl⟩

/-! ## C5: ensureAllowance is idempotent -/

/-- C5: when the current allowance covers the required amount the call
performs no transaction and leaves the allowance unchanged; otherwise it
submits exactly one approval transaction for MaxUint256 and waits for it to
be mined; and a second call right after any first call submits no
transaction at all. -/
theorem ensureAllowance_idempotent (target token owner : Address)
    (existing : Nat) (required : Int) (hreq : required ≤ (maxUint256 : Int)) :
    (required ≤ (existing : Int) →
      checkAllowanceAndApproveIfNecessary target token owner existing required =
        ([Effect.readAllowance owner target token], existing))
    ∧ ((existing : Int) < required →
      checkAllowanceAndApproveIfNecessary target token owner existing required =
        ([Effect.readAllowance owner target token,
          Effect.approveTx target token maxUint256, Effect.waitMined], maxUint256))
    ∧ ((checkAllowanceAndApproveIfNecessary target token owner
          (checkAllowanceAndApproveIfNecessary target token owner existing required).2
          required).1.filter isOnChainTx = []) := by
  refine ⟨?_, ?_, ?_⟩
  · intro h
    simp [checkAllowanceAndApproveIfNecessary, h]
  · intro h
    simp [checkAllowanceAndApproveIfNecessary, not_le.mpr h]
  · by_cases h : required ≤ (existing : Int)
    · simp [checkAllowanceAndApproveIfNecessary, h, isOnChainTx]
    · simp [checkAllowanceAndApproveIfNecessary, h, hreq, isOnChainTx]

/-- Witness for C5: an insufficient first call submits the single MaxUint256
approval, and the follow-up call performs zero transactions. -/
theorem ensureAllowance_idempotent_witness :
    checkAllowanceAndApproveIfNecessary "0xT" "0xK" "0xO" 0 5 =
      ([Effect.readAllowance "0xO" "0xT" "0xK",
        Effect.approveTx "0xT" "0xK" maxUint256, Effect.waitMined], maxUint256)
    ∧ (checkAllowanceAndApproveIfNecessary "0xT" "0xK" "0xO"
        (checkAllowanceAndApproveIfNecessary "0xT" "0xK" "0xO" 0 5).2
        5).1.filter isOnChainTx = [] :=
  ⟨(ensureAllowance_idempotent "0xT" "0xK" "0xO" 0 5
      (by norm_num [maxUint256])).2.1 (by norm_num),
   (ensureAllowance_idempotent "0xT" "0xK" "0xO" 0 5
      (by norm_num [maxUint256])).2.2⟩

/-! ## C3: slippage computation in the two executors -/

/-- C3 counterexample: at a quoted output of 2 base units the off-chain
order executor computes 2 (Math.round of the double product 2 * (1 - 0.05),
whose exact value is just below 1.9), whereas floor(2 * 95 / 100) is 1, so
the two executors do not both compute floor(E * 95 / 100). -/
theorem slippageFloor_counterexample :
    cowAdjustedBuyAmount 2 = 2 ∧ ⌊((2 : ℚ) * 95 / 100)⌋ = 1
    ∧ cowAdjustedBuyAmount 2 ≠ ⌊((2 : ℚ) * 95 / 100)⌋ := by
  refine ⟨cowAdjustedBuyAmount_two, floor_two_mul_95_div_100, ?_⟩
  rw [cowAdjustedBuyAmount_two, floor_two_mul_95_div_100]
  decide

/-- C3 amended: the AMM swap executor computes floor(E * 95 / 100) by
integer BigNumber arithmetic; the off-chain order executor instead
evaluates Math.round(E * (1 - 0.05)) in IEEE-754 double arithmetic, which
does not equal floor(E * 95 / 100): at E = 2 it yields 2 while the floor
is 1. -/
theorem slippage_amended :
    (∀ E : Nat, ammAmountOutMin E = Int.toNat ⌊((E : ℚ) * 95 / 100)⌋)
    ∧ cowAdjustedBuyAmount 2 = 2 ∧ ⌊((2 : ℚ) * 95 / 100)⌋ = 1 := by
  refine ⟨?_, cowAdjustedBuyAmount_two, floor_two_mul_95_div_100⟩
  intro E
  have h : ((E : ℚ) * 95 / 100) = (((E * 95 : ℕ) : ℤ) : ℚ) / ((100 : ℕ) : ℚ) := by
    push_cast; ring
  rw [h, Rat.floor_intCast_div_natCast, ← Int.natCast_div]
  simp only [Int.toNat_natCast, ammAmountOutMin]

/-! ## C9: amount conversion round-trips -/

/-- C9: for every (chain, token) pair of the decimal table with precision d,
converting a human-decimal amount to base units and formatting back at
precision d reproduces the input; concretely, "100" at 6 decimals converts
to 100000000 base units, and a quoted output of 200000000 with 5% slippage
yields a minimum acceptable output of 190000000. -/
theorem amountConversion_roundTrip :
    (∀ chainId chainTable token d,
      List.lookup chainId decimalConverter = some chainTable →
      List.lookup token chainTable = some d →
      ∀ (q : ℚ) (n : Int), parseUnits q d = some n → formatUnits n d = q)
    ∧ parseUnits 100 6 = some 100000000
    ∧ ammAmountOutMin 200000000 = 190000000 := by
  refine ⟨?_, parseUnits_hundred_six, by decide⟩
  intro chainId chainTable token d _ _ q n hp
  simp only [parseUnits] at hp
  split at hp
  · rename_i hden
    obtain rfl : (q * (10 : ℚ) ^ d).num = n := Option.some.inj hp
    unfold formatUnits
    have hnum : (((q * (10 : ℚ) ^ d).num : ℚ)) = q * (10 : ℚ) ^ d := by
      conv_rhs => rw [← Rat.num_div_den (q * (10 : ℚ) ^ d)]
      rw [hden]
      simp
    rw [hnum]
    have hpow : ((10 : ℚ) ^ d) ≠ 0 := by positivity
    field_simp
  · exact absurd hp (by simp)

/-- Witness for C9: formatting the converted mainnet-USDC amount back at 6
decimals reproduces 100. -/
theorem amountConversion_roundTrip_witness : formatUnits 100000000 6 = 100 :=
  amountConversion_roundTrip.1 1 mainnetDecimals
    "0xA0b86991c6218b36c1d19D4a2e9Eb0cE3606eB48" 6 (by decide) (by decide)
    100 100000000 amountConversion_roundTrip.2.1

/-! ## C8 and C10: the off-chain settlement tracker -/

/-- The status trace OPEN, OPEN, FULFILLED across successive polls. -/
def statusOpenOpenFulfilled : Nat → OrderStatus :=
  fun k => if k < 2 then OrderStatus.OPEN else OrderStatus.FULFILLED

lemma waitLoop_spec (orderId : String) (poll : Nat → OrderStatus) :
    ∀ fuel k m, (∀ j, j < m → poll (k + j) = OrderStatus.OPEN) →
      poll (k + m) ≠ OrderStatus.OPEN → m < fuel →
      waitLoop orderId poll fuel k =
        some (poll (k + m), pollTrace orderId (m + 1)) := by
  intro fuel
  induction fuel with
  | zero => intro k m _ _ h; omega
  | succ fuel ih =>
    intro k m hopen hstop hm
    match m with
    | 0 =>
      have hk : poll k ≠ OrderStatus.OPEN := by simpa using hstop
      simp only [waitLoop, if_neg hk]
      simp [pollTrace]
    | m + 1 =>
      have hk : poll k = OrderStatus.OPEN := by simpa using hopen 0 (by omega)
      have hrec := ih (k + 1) m
        (fun j hj => by
          have := hopen (j + 1) (by omega)
          simpa [Nat.add_assoc, Nat.add_comm 1 j] using this)
        (by
          have : k + 1 + m = k + (m + 1) := by omega
          rw [this]; exact hstop)
        (by omega)
      simp only [waitLoop, if_pos hk, hrec]
      have : k + 1 + m = k + (m + 1) := by omega
      rw [this]
      simp [pollTrace]

/-- C8: the tracker polls on a fixed 3-second interval for as long as the
status is OPEN and returns the first non-OPEN status (after exactly m + 1
sleep-and-poll iterations when the first m polls observe OPEN); on the
trace OPEN, OPEN, FULFILLED it returns FULFILLED after three polls; and a
perpetually OPEN order is polled beyond any bound (no fuel suffices). -/
theorem settlementTracker_polls_until_terminal :
    (∀ (orderId chain : String) (cid : Nat) (poll : Nat → OrderStatus) (m fuel : Nat),
      supportedChains chain = some cid →
      (∀ k, k < m → poll k = OrderStatus.OPEN) → poll m ≠ OrderStatus.OPEN →
      m < fuel →
      waitForOrderStatus orderId chain poll fuel =
        .ok (some (poll m, pollTrace orderId (m + 1))))
    ∧ waitForOrderStatus "oid" "mainnet" statusOpenOpenFulfilled 5 =
        .ok (some (OrderStatus.FULFILLED, pollTrace "oid" 3))
    ∧ (∀ (orderId : String) (fuel : Nat),
        waitLoop orderId (fun _ => OrderStatus.OPEN) fuel 0 = none) := by
  refine ⟨?_, ?_, ?_⟩
  · intro orderId chain cid poll m fuel hchain hopen hstop hm
    unfold waitForOrderStatus
    rw [hchain]
    have := waitLoop_spec orderId poll fuel 0 m (by simpa using hopen)
      (by simpa using hstop) hm
    simp only [this]
    simp
  · decide
  · intro orderId fuel
    have hall : ∀ fuel k,
        waitLoop orderId (fun _ => OrderStatus.OPEN) fuel k = none := by
      intro fuel
      induction fuel with
      | zero => intro k; rfl
      | succ fuel ih => intro k; simp [waitLoop, ih]
    exact hall fuel 0

/-- Witness for C8 applying the general statement to the OPEN, OPEN,
FULFILLED trace on sepolia. -/
theorem settlementTracker_polls_until_terminal_witness :
    waitForOrderStatus "w8" "sepolia" statusOpenOpenFulfilled 4 =
      .ok (some (OrderStatus.FULFILLED, pollTrace "w8" 3)) :=
  settlementTracker_polls_until_terminal.1 "w8" "sepolia" 11155111
    statusOpenOpenFulfilled 2 4 rfl (by decide) (by decide) (by decide)

/-- C10: whenever the polling loop returns, the returned status is not OPEN,
and the trace begins with a full 3000 ms sleep followed by a status poll, so
at least one interval elapses and at least one poll occurs before any
result, even for an order that is already terminal at the first poll. -/
theorem settlementTracker_sleeps_before_first_poll
    (orderId : String) (poll : Nat → OrderStatus) (fuel : Nat)
    (res : OrderStatus) (tr : List Effect)
    (h : waitLoop orderId poll fuel 0 = some (res, tr)) :
    res ≠ OrderStatus.OPEN
    ∧ ∃ rest, tr = Effect.sleepMs 3000 :: Effect.pollOrder orderId :: rest := by
  suffices hgen : ∀ fuel k res tr, waitLoop orderId poll fuel k = some (res, tr) →
      res ≠ OrderStatus.OPEN
      ∧ ∃ rest, tr = Effect.sleepMs 3000 :: Effect.pollOrder orderId :: rest from
    hgen fuel 0 res tr h
  intro fuel
  induction fuel with
  | zero => intro k res tr h; exact absurd h (by simp [waitLoop])
  | succ fuel ih =>
    intro k res tr h
    simp only [waitLoop] at h
    by_cases hk : poll k = OrderStatus.OPEN
    · rw [if_pos hk] at h
      cases hrec : waitLoop orderId poll fuel (k + 1) with
      | none =>
        rw [hrec] at h
        exact absurd h (by simp)
      | some p =>
        obtain ⟨r, tr'⟩ := p
        rw [hrec] at h
        have hp : r = res ∧
            Effect.sleepMs 3000 :: Effect.pollOrder orderId :: tr' = tr := by
          simpa [Prod.mk.injEq] using h
        obtain ⟨h1, h2⟩ := hp
        obtain ⟨hres, -⟩ := ih (k + 1) r tr' hrec
        exact ⟨h1 ▸ hres, tr', h2.symm⟩
    · rw [if_neg hk] at h
      have hp : poll k = res ∧
          [Effect.sleepMs 3000, Effect.pollOrder orderId] = tr := by
        simpa [Prod.mk.injEq] using h
      obtain ⟨h1, h2⟩ := hp
      exact ⟨h1 ▸ hk, [], h2.symm⟩

/-- Witness for C10 at an order that is already FULFILLED at the first
poll: the loop still sleeps once and polls once. -/
theorem settlementTracker_sleeps_before_first_poll_witness :
    (OrderStatus.FULFILLED ≠ OrderStatus.OPEN)
    ∧ ∃ rest, [Effect.sleepMs 3000, Effect.pollOrder "w10"] =
        Effect.sleepMs 3000 :: Effect.pollOrder "w10" :: rest :=
  settlementTracker_sleeps_before_first_poll "w10" (fun _ => OrderStatus.FULFILLED)
    1 OrderStatus.FULFILLED [Effect.sleepMs 3000, Effect.pollOrder "w10"] (by decide)

/-! ## C1 and C2: path selection and bootstrap fallback -/

/-- Whether a hop leg ends up usable in the bootstrap fallback: it was
already reported by the probe, or its re-check finds a pair, or its
creation transaction succeeds; a throwing re-check makes the leg attempt
fail. -/
def legCreatable (probe : Bool) (recheck : Except String Address)
    (createOk : Bool) : Bool :=
  probe ||
    (match recheck with
     | .ok pairAddress => (pairAddress != zeroAddress) || createOk
     | .error _ => false)

lemma createLiquidityPoolIfNeeded_trace_head (factory a b : Address)
    (recheck : Except String Address) (createOk : Bool) (newPair : Address) :
    ∃ rest, (createLiquidityPoolIfNeeded factory a b recheck createOk newPair).2 =
      Effect.getPair factory a b :: rest := by
  rcases recheck with e | p
  · exact ⟨[], rfl⟩
  · by_cases h : p = zeroAddress
    · cases createOk
      · exact ⟨[Effect.createPairTx factory a b],
          by simp [createLiquidityPoolIfNeeded, h]⟩
      · exact ⟨[Effect.createPairTx factory a b, Effect.waitMined,
          Effect.getPair factory a b], by simp [createLiquidityPoolIfNeeded, h]⟩
    · exact ⟨[], by simp [createLiquidityPoolIfNeeded, h]⟩

lemma createLiquidityPoolIfNeeded_zero_tx (factory a b : Address)
    (createOk : Bool) (newPair : Address) :
    Effect.createPairTx factory a b ∈
      (createLiquidityPoolIfNeeded factory a b (.ok zeroAddress) createOk newPair).2 := by
  cases createOk <;> simp [createLiquidityPoolIfNeeded]

lemma legStep_ok_iff (factory a b d : Address) (probe : Bool)
    (recheck : Except String Address) (createOk : Bool) (newPair : Address) :
    (∃ x tr, (if !probe then createLiquidityPoolIfNeeded factory a b recheck createOk newPair
        else ((.ok d, []) : Except String Address × List Effect)) = (.ok x, tr)) ↔
      legCreatable probe recheck createOk = true := by
  cases probe
  · rcases recheck with e | p
    · simp [createLiquidityPoolIfNeeded, legCreatable]
    · by_cases h : p = zeroAddress <;> cases createOk <;>
        simp [createLiquidityPoolIfNeeded, legCreatable, h]
  · simp [legCreatable]

lemma selectPath_no_pools (factoryAddress fromAsset toAsset wethAddr : Address)
    (fromW toW : Bool) (o : BootstrapOracle) (hboth : (fromW && toW) = false) :
    selectPath factoryAddress fromAsset toAsset wethAddr false fromW toW o =
      match createLiquidityPoolIfNeeded factoryAddress fromAsset toAsset
          o.pairNowDirect o.createDirectOk o.newPairDirect with
      | (.ok _, tr1) => (.ok [fromAsset, toAsset], tr1)
      | (.error _, tr1) =>
        match (if !fromW then
                createLiquidityPoolIfNeeded factoryAddress fromAsset wethAddr
                  o.pairNowFromWeth o.createFromWethOk o.newPairFromWeth
              else ((.ok wethAddr, []) : Except String Address × List Effect)) with
        | (.error _, tr2) => (.error noViableRouteMessage, tr1 ++ tr2)
        | (.ok _, tr2) =>
          match (if !toW then
                  createLiquidityPoolIfNeeded factoryAddress wethAddr toAsset
                    o.pairNowToWeth o.createToWethOk o.newPairToWeth
                else ((.ok wethAddr, []) : Except String Address × List Effect)) with
          | (.error _, tr3) => (.error noViableRouteMessage, tr1 ++ tr2 ++ tr3)
          | (.ok _, tr3) => (.ok [fromAsset, wethAddr, toAsset], tr1 ++ tr2 ++ tr3) := by
  simp [selectPath, hboth]

/-- C1: path selection is a deterministic function of the three
pool-existence probes: a direct pool yields the two-element path with no
creation transaction, both intermediary hops yield the three-element path
with no creation transaction, and otherwise the bootstrap attempt on the
direct pool begins the trace before any failure is raised, and whenever
its re-check confirms the pool is still absent a creation transaction for
the direct pool is issued. -/
theorem pathSelection_deterministic
    (factoryAddress fromAsset toAsset wethAddr : Address)
    (direct fromW toW : Bool) (o : BootstrapOracle) :
    (direct = true →
      selectPath factoryAddress fromAsset toAsset wethAddr direct fromW toW o =
        (.ok [fromAsset, toAsset], []))
    ∧ (direct = false → fromW = true → toW = true →
      selectPath factoryAddress fromAsset toAsset wethAddr direct fromW toW o =
        (.ok [fromAsset, wethAddr, toAsset], []))
    ∧ (direct = false → (fromW && toW) = false →
      ((selectPath factoryAddress fromAsset toAsset wethAddr direct fromW toW o).2.head? =
          some (Effect.getPair factoryAddress fromAsset toAsset)
        ∧ (o.pairNowDirect = .ok zeroAddress →
          Effect.createPairTx factoryAddress fromAsset toAsset ∈
            (selectPath factoryAddress fromAsset toAsset wethAddr direct fromW toW o).2))) := by
  refine ⟨?_, ?_, ?_⟩
  · rintro rfl
    simp [selectPath]
  · rintro rfl rfl rfl
    simp [selectPath]
  · rintro rfl hboth
    rw [selectPath_no_pools factoryAddress fromAsset toAsset wethAddr fromW toW o hboth]
    obtain ⟨rest1, hrest1⟩ := createLiquidityPoolIfNeeded_trace_head factoryAddress
      fromAsset toAsset o.pairNowDirect o.createDirectOk o.newPairDirect
    have hmem : o.pairNowDirect = .ok zeroAddress →
        Effect.createPairTx factoryAddress fromAsset toAsset ∈
          (createLiquidityPoolIfNeeded factoryAddress fromAsset toAsset
            o.pairNowDirect o.createDirectOk o.newPairDirect).2 := by
      intro hpd
      rw [hpd]
      exact createLiquidityPoolIfNeeded_zero_tx factoryAddress fromAsset toAsset
        o.createDirectOk o.newPairDirect
    rcases hd : createLiquidityPoolIfNeeded factoryAddress fromAsset toAsset
        o.pairNowDirect o.createDirectOk o.newPairDirect with ⟨res1, tr1⟩
    rw [hd] at hrest1 hmem
    dsimp only at hrest1 hmem
    cases res1 with
    | ok x1 =>
      exact ⟨by simp [hrest1], fun hpd => by simpa using hmem hpd⟩
    | error e1 =>
      rcases h2 : (if !fromW then
          createLiquidityPoolIfNeeded factoryAddress fromAsset wethAddr
            o.pairNowFromWeth o.createFromWethOk o.newPairFromWeth
        else ((.ok wethAddr, []) : Except String Address × List Effect)) with ⟨res2, tr2⟩
      cases res2 with
      | error e2 =>
        refine ⟨by simp [hrest1], fun hpd => ?_⟩
        simp only [List.mem_append]
        exact .inl (hmem hpd)
      | ok x2 =>
        rcases h3 : (if !toW then
            createLiquidityPoolIfNeeded factoryAddress wethAddr toAsset
              o.pairNowToWeth o.createToWethOk o.newPairToWeth
          else ((.ok wethAddr, []) : Except String Address × List Effect)) with ⟨res3, tr3⟩
        cases res3 with
        | error e3 =>
          refine ⟨by simp [hrest1], fun hpd => ?_⟩
          simp only [List.mem_append]
          exact .inl (.inl (hmem hpd))
        | ok x3 =>
          refine ⟨by simp [hrest1], fun hpd => ?_⟩
          simp only [List.mem_append]
          exact .inl (.inl (hmem hpd))

/-- Witness for C1 covering all three probe configurations at concrete
inputs: direct pool present, hop pools present, and neither present with a
failing direct creation. -/
theorem pathSelection_deterministic_witness :
    selectPath "0xF" "0xA" "0xB" "0xW" true false false
        ⟨.ok zeroAddress, false, "0xP", .ok zeroAddress, false, "0xQ",
          .ok zeroAddress, false, "0xR"⟩ =
      (.ok ["0xA", "0xB"], [])
    ∧ selectPath "0xF" "0xA" "0xB" "0xW" false true true
        ⟨.ok zeroAddress, false, "0xP", .ok zeroAddress, false, "0xQ",
          .ok zeroAddress, false, "0xR"⟩ =
      (.ok ["0xA", "0xW", "0xB"], [])
    ∧ (selectPath "0xF" "0xA" "0xB" "0xW" false false false
        ⟨.ok zeroAddress, false, "0xP", .ok zeroAddress, false, "0xQ",
          .ok zeroAddress, false, "0xR"⟩).2.head? =
      some (Effect.getPair "0xF" "0xA" "0xB") :=
  ⟨(pathSelection_deterministic "0xF" "0xA" "0xB" "0xW" true false false
      ⟨.ok zeroAddress, false, "0xP", .ok zeroAddress, false, "0xQ",
        .ok zeroAddress, false, "0xR"⟩).1 rfl,
   (pathSelection_deterministic "0xF" "0xA" "0xB" "0xW" false true true
      ⟨.ok zeroAddress, false, "0xP", .ok zeroAddress, false, "0xQ",
        .ok zeroAddress, false, "0xR"⟩).2.1 rfl rfl rfl,
   ((pathSelection_deterministic "0xF" "0xA" "0xB" "0xW" false false false
      ⟨.ok zeroAddress, false, "0xP", .ok zeroAddress, false, "0xQ",
        .ok zeroAddress, false, "0xR"⟩).2.2 rfl rfl).1⟩

/-- C2: with no direct pool, not both hop pools, and a failing direct-pool
creation, the selector still returns the three-element path whenever every
missing hop leg can be created, and raises the terminal no-viable-route
error exactly when some attempted fallback creation also fails. -/
theorem bootstrapFallback_mandatory
    (factoryAddress fromAsset toAsset wethAddr : Address)
    (fromW toW : Bool) (o : BootstrapOracle)
    (hboth : (fromW && toW) = false)
    (hpn : o.pairNowDirect = .ok zeroAddress)
    (hcd : o.createDirectOk = false) :
    (selectPath factoryAddress fromAsset toAsset wethAddr false fromW toW o).1 =
      if legCreatable fromW o.pairNowFromWeth o.createFromWethOk &&
          legCreatable toW o.pairNowToWeth o.createToWethOk then
        .ok [fromAsset, wethAddr, toAsset]
      else
        .error noViableRouteMessage := by
  rw [selectPath_no_pools factoryAddress fromAsset toAsset wethAddr fromW toW o hboth,
    hpn, hcd]
  have hdirect : createLiquidityPoolIfNeeded factoryAddress fromAsset toAsset
      (.ok zeroAddress) false o.newPairDirect =
      (.error "Failed to create liquidity pool",
        [Effect.getPair factoryAddress fromAsset toAsset,
         Effect.createPairTx factoryAddress fromAsset toAsset]) := by
    simp [createLiquidityPoolIfNeeded]
  rw [hdirect]
  rcases h2 : (if !fromW then
      createLiquidityPoolIfNeeded factoryAddress fromAsset wethAddr
        o.pairNowFromWeth o.createFromWethOk o.newPairFromWeth
    else ((.ok wethAddr, []) : Except String Address × List Effect)) with ⟨res2, tr2⟩
  cases res2 with
  | error e2 =>
    have hlegA : legCreatable fromW o.pairNowFromWeth o.createFromWethOk = false := by
      cases hL : legCreatable fromW o.pairNowFromWeth o.createFromWethOk
      · rfl
      · obtain ⟨x, tr, hx⟩ := (legStep_ok_iff factoryAddress fromAsset wethAddr wethAddr
          fromW o.pairNowFromWeth o.createFromWethOk o.newPairFromWeth).mpr hL
        rw [h2] at hx
        exact absurd hx (by simp)
    simp [hlegA]
  | ok x2 =>
    have hlegA : legCreatable fromW o.pairNowFromWeth o.createFromWethOk = true :=
      (legStep_ok_iff factoryAddress fromAsset wethAddr wethAddr
        fromW o.pairNowFromWeth o.createFromWethOk o.newPairFromWeth).mp ⟨x2, tr2, h2⟩
    rcases h3 : (if !toW then
        createLiquidityPoolIfNeeded factoryAddress wethAddr toAsset
          o.pairNowToWeth o.createToWethOk o.newPairToWeth
      else ((.ok wethAddr, []) : Except String Address × List Effect)) with ⟨res3, tr3⟩
    cases res3 with
    | error e3 =>
      have hlegB : legCreatable toW o.pairNowToWeth o.createToWethOk = false := by
        cases hL : legCreatable toW o.pairNowToWeth o.createToWethOk
        · rfl
        · obtain ⟨x, tr, hx⟩ := (legStep_ok_iff factoryAddress wethAddr toAsset wethAddr
            toW o.pairNowToWeth o.createToWethOk o.newPairToWeth).mpr hL
          rw [h3] at hx
          exact absurd hx (by simp)
      simp [hlegA, hlegB]
    | ok x3 =>
      have hlegB : legCreatable toW o.pairNowToWeth o.createToWethOk = true :=
        (legStep_ok_iff factoryAddress wethAddr toAsset wethAddr
          toW o.pairNowToWeth o.createToWethOk o.newPairToWeth).mp ⟨x3, tr3, h3⟩
      simp [hlegA, hlegB]

/-- Witness for C2: direct creation fails, both hop creations succeed, and
the selector returns the three-element path through the intermediary. -/
theorem bootstrapFallback_mandatory_witness :
    (selectPath "0xF" "0xA" "0xB" "0xW" false false false
        ⟨.ok zeroAddress, false, "0xP", .ok zeroAddress, true, "0xQ",
          .ok zeroAddress, true, "0xR"⟩).1 =
      .ok ["0xA", "0xW", "0xB"] := by
  have h := bootstrapFallback_mandatory "0xF" "0xA" "0xB" "0xW" false false
    ⟨.ok zeroAddress, false, "0xP", .ok zeroAddress, true, "0xQ",
      .ok zeroAddress, true, "0xR"⟩
    rfl rfl rfl
  simpa [legCreatable] using h

/-! ## C4: the off-chain order executor flow -/

/-- Index of the first effect satisfying a predicate. -/
def effectIdx (tr : List Effect) (p : Effect → Bool) : Option Nat :=
  tr.findIdx? p

/-- Recognises the quote request. -/
def isGetQuoteEffect : Effect → Bool
  | .getQuote => true
  | _ => false

/-- Recognises the allowance read that starts ensureAllowance. -/
def isAllowanceReadEffect : Effect → Bool
  | .readAllowance _ _ _ => true
  | _ => false

/-- Strict order on optional indices; false when either is absent. -/
def optIdxLt : Option Nat → Option Nat → Bool
  | some i, some j => decide (i < j)
  | _, _ => false

lemma sendOrder_success_trace (w : OrderWorld) (chain : String)
    (fromAsset toAsset : Address) (amount : ℚ) (cid : Nat)
    (chainDecimals : List (Address × Nat)) (decimals : Nat)
    (a : Int) (q : CowQuote) (oid : String)
    (hchain : supportedChains chain = some cid)
    (hw : w.walletConnected = true)
    (hcd : List.lookup cid decimalConverter = some chainDecimals)
    (htd : List.lookup fromAsset chainDecimals = some decimals)
    (hparse : parseUnits amount decimals = some a)
    (hq : w.quoteResult = .ok q)
    (hs : w.sendOrderResult = .ok oid) :
    sendOrder w chain fromAsset toAsset amount =
      (.ok oid,
        [Effect.switchChain cid, Effect.getAddress, Effect.convertAmount a] ++
        (checkAllowanceAndApproveIfNecessary w.vaultRelayerAddress fromAsset
          w.senderAddress w.existingAllowance a).1 ++
        [Effect.getQuote, Effect.signOrder 0 a (cowAdjustedBuyAmount q.buyAmount),
         Effect.submitOrder]) := by
  simp only [sendOrder, hchain, hw, hcd, htd, hparse, hq, hs, Bool.not_true,
    Bool.false_eq_true, if_false]
  simp

/-- The world of the C4 counterexample run: connected wallet, empty
allowance, and a venue that quotes 200000000 and accepts the order. -/
def c4World : OrderWorld :=
  { walletConnected := true
    senderAddress := "0x00000000000000000000000000000000000000Aa"
    vaultRelayerAddress := "0x00000000000000000000000000000000000000Bb"
    existingAllowance := 0
    quoteResult := .ok { feeAmount := 5, sellAmount := 99, buyAmount := 200000000, quoteId := 7 }
    sendOrderResult := .ok "order-1" }

lemma c4World_trace :
    (sendOrder c4World "mainnet" "0xA0b86991c6218b36c1d19D4a2e9Eb0cE3606eB48"
        "0x6B175474E89094C44Da98b954EedeAC495271d0F" 100).2 =
      [Effect.switchChain 1, Effect.getAddress, Effect.convertAmount 100000000,
       Effect.readAllowance "0x00000000000000000000000000000000000000Aa"
         "0x00000000000000000000000000000000000000Bb"
         "0xA0b86991c6218b36c1d19D4a2e9Eb0cE3606eB48",
       Effect.approveTx "0x00000000000000000000000000000000000000Bb"
         "0xA0b86991c6218b36c1d19D4a2e9Eb0cE3606eB48" maxUint256,
       Effect.waitMined,
       Effect.getQuote, Effect.signOrder 0 100000000 190000000,
       Effect.submitOrder] := by
  have h := sendOrder_success_trace c4World "mainnet"
    "0xA0b86991c6218b36c1d19D4a2e9Eb0cE3606eB48"
    "0x6B175474E89094C44Da98b954EedeAC495271d0F" 100 1 mainnetDecimals 6
    100000000 { feeAmount := 5, sellAmount := 99, buyAmount := 200000000, quoteId := 7 }
    "order-1" rfl rfl (by decide) (by decide) parseUnits_hundred_six rfl rfl
  rw [h]
  simp only [cowAdjustedBuyAmount_190M]
  simp [c4World, checkAllowanceAndApproveIfNecessary]

/-- C4 counterexample: in a concrete successful run of the off-chain order
executor both the quote request and the allowance step occur, but the quote
request does not precede the allowance step (the code ensures the allowance
before requesting the quote), refuting the claimed step order. -/
theorem orderExecutor_stepOrder_counterexample :
    optIdxLt
        (effectIdx (sendOrder c4World "mainnet"
          "0xA0b86991c6218b36c1d19D4a2e9Eb0cE3606eB48"
          "0x6B175474E89094C44Da98b954EedeAC495271d0F" 100).2 isGetQuoteEffect)
        (effectIdx (sendOrder c4World "mainnet"
          "0xA0b86991c6218b36c1d19D4a2e9Eb0cE3606eB48"
          "0x6B175474E89094C44Da98b954EedeAC495271d0F" 100).2 isAllowanceReadEffect) = false
    ∧ effectIdx (sendOrder c4World "mainnet"
        "0xA0b86991c6218b36c1d19D4a2e9Eb0cE3606eB48"
        "0x6B175474E89094C44Da98b954EedeAC495271d0F" 100).2 isGetQuoteEffect ≠ none
    ∧ effectIdx (sendOrder c4World "mainnet"
        "0xA0b86991c6218b36c1d19D4a2e9Eb0cE3606eB48"
        "0x6B175474E89094C44Da98b954EedeAC495271d0F" 100).2 isAllowanceReadEffect ≠ none := by
  rw [c4World_trace]
  refine ⟨?_, ?_, ?_⟩ <;> decide

/-- C4 amended: the off-chain order executor converts the amount, ensures
the vault-relayer allowance, then requests the quote; before signing it
overrides the fee to zero, the sell amount to the exact requested base-unit
amount, and the buy amount to Math.round(buyAmount * (1 - 0.05)) evaluated
in IEEE-754 double arithmetic; it finally submits the signed order and
returns the order identifier, with every allowance effect preceding the
quote request. -/
theorem orderExecutor_flow_amended (w : OrderWorld) (chain : String)
    (fromAsset toAsset : Address) (amount : ℚ) (cid : Nat)
    (chainDecimals : List (Address × Nat)) (decimals : Nat)
    (a : Int) (q : CowQuote) (oid : String)
    (hchain : supportedChains chain = some cid)
    (hw : w.walletConnected = true)
    (hcd : List.lookup cid decimalConverter = some chainDecimals)
    (htd : List.lookup fromAsset chainDecimals = some decimals)
    (hparse : parseUnits amount decimals = some a)
    (hq : w.quoteResult = .ok q)
    (hs : w.sendOrderResult = .ok oid) :
    sendOrder w chain fromAsset toAsset amount =
      (.ok oid,
        [Effect.switchChain cid, Effect.getAddress, Effect.convertAmount a] ++
        (checkAllowanceAndApproveIfNecessary w.vaultRelayerAddress fromAsset
          w.senderAddress w.existingAllowance a).1 ++
        [Effect.getQuote, Effect.signOrder 0 a (cowAdjustedBuyAmount q.buyAmount),
         Effect.submitOrder])
    ∧ optIdxLt
        (effectIdx (sendOrder w chain fromAsset toAsset amount).2 isAllowanceReadEffect)
        (effectIdx (sendOrder w chain fromAsset toAsset amount).2 isGetQuoteEffect) = true := by
  have h := sendOrder_success_trace w chain fromAsset toAsset amount cid
    chainDecimals decimals a q oid hchain hw hcd htd hparse hq hs
  refine ⟨h, ?_⟩
  rw [h]
  unfold checkAllowanceAndApproveIfNecessary
  by_cases hA : a ≤ (w.existingAllowance : Int) <;>
    simp [hA, effectIdx, optIdxLt, isAllowanceReadEffect, isGetQuoteEffect,
      List.findIdx?]

/-- Witness for C4 amended at a concrete run with a sufficient existing
allowance. -/
theorem orderExecutor_flow_amended_witness :
    sendOrder
        { walletConnected := true
          senderAddress := "0x00000000000000000000000000000000000000Cc"
          vaultRelayerAddress := "0x00000000000000000000000000000000000000Dd"
          existingAllowance := maxUint256
          quoteResult := .ok { feeAmount := 3, sellAmount := 42, buyAmount := 200000000, quoteId := 9 }
          sendOrderResult := .ok "order-2" }
        "mainnet" "0xA0b86991c6218b36c1d19D4a2e9Eb0cE3606eB48"
        "0xC02aaA39b223FE8D0A0e5C4F27eAD9083C756Cc2" 100 =
      (.ok "order-2",
        [Effect.switchChain 1, Effect.getAddress, Effect.convertAmount 100000000] ++
        (checkAllowanceAndApproveIfNecessary
          "0x00000000000000000000000000000000000000Dd"
          "0xA0b86991c6218b36c1d19D4a2e9Eb0cE3606eB48"
          "0x00000000000000000000000000000000000000Cc" maxUint256 100000000).1 ++
        [Effect.getQuote, Effect.signOrder 0 100000000 (cowAdjustedBuyAmount 200000000),
         Effect.submitOrder]) :=
  (orderExecutor_flow_amended
    { walletConnected := true
      senderAddress := "0x00000000000000000000000000000000000000Cc"
      vaultRelayerAddress := "0x00000000000000000000000000000000000000Dd"
      existingAllowance := maxUint256
      quoteResult := .ok { feeAmount := 3, sellAmount := 42, buyAmount := 200000000, quoteId := 9 }
      sendOrderResult := .ok "order-2" }
    "mainnet" "0xA0b86991c6218b36c1d19D4a2e9Eb0cE3606eB48"
    "0xC02aaA39b223FE8D0A0e5C4F27eAD9083C756Cc2" 100 1 mainnetDecimals 6
    100000000 { feeAmount := 3, sellAmount := 42, buyAmount := 200000000, quoteId := 9 }
    "order-2" rfl rfl (by decide) (by decide) parseUnits_hundred_six rfl rfl).1

/-! ## C6: unsupported chains fail before any signer or network call -/

/-- C6: for every chain name outside the registered set sepolia, mainnet,
base, each entry point raises the Unsupported chain configuration error
with an empty effect trace, so no signer interaction or network call
occurs (the transfer and AMM entry points check wallet presence first, so
they are taken with a connected wallet). -/
theorem unsupportedChain_failsFast (chain : String)
    (h1 : chain ≠ "sepolia") (h2 : chain ≠ "mainnet") (h3 : chain ≠ "base") :
    (∀ (w : TransferWorld) (receiver : Address) (amount : ℚ) (token : Address),
      w.walletConnected = true →
      sendTransaction w receiver amount chain token = (.error "Unsupported chain", []))
    ∧ (∀ (w : OrderWorld) (fromAsset toAsset : Address) (amount : ℚ),
      sendOrder w chain fromAsset toAsset amount = (.error "Unsupported chain", []))
    ∧ (∀ (w : SwapWorld) (fromAsset toAsset : Address) (amount : ℚ),
      w.walletConnected = true →
      uniswapV2Swap w chain fromAsset toAsset amount =
        (.error ("Unsupported chain: " ++ chain), []))
    ∧ (∀ (orderId : String) (poll : Nat → OrderStatus) (fuel : Nat),
      waitForOrderStatus orderId chain poll fuel = .error "Unsupported chain") := by
  have hch : supportedChains chain = none := by
    simp [supportedChains, h1, h2, h3]
  refine ⟨?_, ?_, ?_, ?_⟩
  · intro w receiver amount token hw
    simp [sendTransaction, hch, hw]
  · intro w fromAsset toAsset amount
    simp [sendOrder, hch]
  · intro w fromAsset toAsset amount hw
    simp [uniswapV2Swap, hch, hw]
  · intro orderId poll fuel
    simp [waitForOrderStatus, hch]

/-- Witness for C6 at the chain name polygon with concrete worlds. -/
theorem unsupportedChain_failsFast_witness :
    sendTransaction ⟨true, "0x1", none, "0xh"⟩ "0xr" 1 "polygon" "0xt" =
      (.error "Unsupported chain", [])
    ∧ sendOrder ⟨true, "0x1", "0x2", 0, .error ⟨none, none, "e"⟩, .error ⟨none, none, "e"⟩⟩
        "polygon" "0xa" "0xb" 1 = (.error "Unsupported chain", [])
    ∧ uniswapV2Swap
        ⟨true, "0x1", 0, .error "e", .error "e", .error "e",
          ⟨.ok zeroAddress, false, "0xP", .ok zeroAddress, false, "0xQ",
            .ok zeroAddress, false, "0xR"⟩,
          .error "e", .error "e"⟩
        "polygon" "0xa" "0xb" 1 = (.error "Unsupported chain: polygon", [])
    ∧ waitForOrderStatus "oid" "polygon" (fun _ => OrderStatus.OPEN) 2 =
      .error "Unsupported chain" := by
  obtain ⟨ha, hb, hc, hd⟩ := unsupportedChain_failsFast "polygon"
    (by decide) (by decide) (by decide)
  exact ⟨ha _ "0xr" 1 "0xt" rfl, hb _ "0xa" "0xb" 1, hc _ "0xa" "0xb" 1 rfl,
    hd "oid" (fun _ => OrderStatus.OPEN) 2⟩

end LlmFront
